import Mathlib

/-!
Shallow embedding of `src/train_loops.py` (ironmarch-archetypal).

Numeric values carried by tensors are modelled as rationals; 1-D tensors as
`QVec` and 2-D tensors as `QMat`.  The parts delegated to external libraries
(the VAE network passes, the noise / Dirichlet samplers, and the numeric
evaluation of the geomloss / MSE / BCE loss kernels) are abstracted as oracle
functions supplied to the training loop; everything the repository itself
computes — configuration plumbing, loss combination, metric accumulation and
the per-epoch report — is embedded directly.
-/

namespace TrainLoops

abbrev QVec := List ℚ
abbrev QMat := List QVec

/-- `bert_embedding_size = 768` (line 24). -/
def bert_embedding_size : ℕ := 768

/-- `config['losses']['distribution']`: fields read at lines 60-62, 66, 89. -/
structure DistributionCfg where
  type : String
  p : ℚ
  blur : ℚ
  alpha : ℚ
  weight : ℚ
deriving DecidableEq

/-- `config['losses']['class']`: fields read at lines 64, 89, 128. -/
structure ClassCfg where
  weight : ℚ
  bias : ℚ
  threshold : ℚ
deriving DecidableEq

/-- `config['losses']['reconstruction']`: read at line 89. -/
structure ReconCfg where
  weight : ℚ
deriving DecidableEq

/-- `config['losses']` (the `class` key is spelt `class_` since `class` is a
Lean keyword). -/
structure LossesCfg where
  class_ : ClassCfg
  distribution : DistributionCfg
  reconstruction : ReconCfg
deriving DecidableEq

/-- `config['model']`: read at lines 40, 43, 66. -/
structure ModelCfg where
  latent_dims : ℕ
  softmax : Bool
deriving DecidableEq

/-- `config['training']`: read at lines 68, 82, 114. -/
structure TrainingCfg where
  max_epochs : ℕ
  batch_size : ℕ
deriving DecidableEq

/-- `config['dataset']`: the fields used by `train_sinkhorn_vae`. -/
structure DatasetCfg where
  context : Bool
  batch_size : ℕ
deriving DecidableEq

/-- The trial configuration dictionary, restricted to the keys
`train_sinkhorn_vae` reads. -/
structure Config where
  device : String
  model : ModelCfg
  training : TrainingCfg
  losses : LossesCfg
  dataset : DatasetCfg
  latent_space_noise_std : ℚ
  adam_learning_rate : ℚ
  adam_betas : ℚ × ℚ
deriving DecidableEq

/-- Lines 27-31: `device = config['device']`, and when it is `'cuda:0'` but
CUDA is unavailable the loop reverts to `'cpu'`. -/
def resolveDevice (device : String) (cuda_available : Bool) : String :=
  if device = "cuda:0" then (if cuda_available then device else "cpu") else device

/-- `geomloss.SamplesLoss(loss, p, blur)` as constructed at lines 59-62:
recorded by its constructor arguments; numeric evaluation is an oracle. -/
structure SamplesLoss where
  loss : String
  p : ℚ
  blur : ℚ
deriving DecidableEq

/-- `torch.nn.BCEWithLogitsLoss(pos_weight)` as constructed at line 64. -/
structure BCEWithLogitsLoss where
  pos_weight : QVec
deriving DecidableEq

/-- `torch.distributions.dirichlet.Dirichlet(concentration)` as constructed
at line 66. -/
structure Dirichlet where
  concentration : QVec
deriving DecidableEq

/-- Line 59-62: `sinkhorn_loss_fn = geomloss.SamplesLoss(loss = ...type,
p = ...p, blur = ...blur)`. -/
def sinkhorn_loss_fn (config : Config) : SamplesLoss :=
  { loss := config.losses.distribution.type
    p := config.losses.distribution.p
    blur := config.losses.distribution.blur }

/-- Line 64: `class_loss_fn = torch.nn.BCEWithLogitsLoss(pos_weight =
(1 / class_proportions) * config['losses']['class']['bias'])`
(elementwise over the class-proportions tensor). -/
def class_loss_fn (config : Config) (class_proportions : QVec) : BCEWithLogitsLoss :=
  { pos_weight := class_proportions.map (fun c => (1 / c) * config.losses.class_.bias) }

/-- Line 66: `dirichlet_distribution = Dirichlet(torch.tensor([alpha for i in
range(latent_dims)]))`. -/
def dirichlet_distribution (config : Config) : Dirichlet :=
  { concentration := (List.range config.model.latent_dims).map
      (fun _ => config.losses.distribution.alpha) }

/-- The `models.VAE` constructor call at lines 39-44, recorded by its
arguments. -/
structure VAE where
  latent_dim : ℕ
  input_dim : ℕ
  feature_dim : ℕ
  use_softmax : Bool
deriving DecidableEq

/-- Lines 35-44: `input_dim` doubles when context is used, and the model is
built with `feature_dim = 7`. -/
def mkModel (config : Config) : VAE :=
  { latent_dim := config.model.latent_dims
    input_dim := if config.dataset.context then bert_embedding_size * 2 else bert_embedding_size
    feature_dim := 7
    use_softmax := config.model.softmax }

/-- One batch from a data loader: the `features` and `posts` tensors. -/
structure Batch where
  features : QMat
  posts : QMat
deriving DecidableEq

/-- Elementwise tensor addition (`posts + noise`, line 73). -/
def matAdd (a b : QMat) : QMat :=
  (a.zip b).map (fun rc => (rc.1.zip rc.2).map (fun xy => xy.1 + xy.2))

/-- The stochastic / network-evaluation environment of one step: the model's
passes (whose parameters evolve with training), `torch.normal` and Dirichlet
sampling.  All are abstracted: the loop only wires their inputs and outputs. -/
structure Oracle where
  encode : QMat → QMat × QMat
  reparameterize : QMat → QMat → QMat
  decoder : QMat → QMat
  feature_head : QMat → QMat
  normal : ℚ → QMat
  dirichlet_sample : Dirichlet → ℕ → QMat

/-- Numeric evaluation of the three loss kernels, abstracted. -/
structure LossEval where
  samples_loss : SamplesLoss → QMat → QMat → ℚ
  mse : QMat → QMat → ℚ
  bce_with_logits : BCEWithLogitsLoss → QMat → QMat → ℚ

/-- The values produced inside one step of the training or validation loop. -/
structure StepValues where
  eps : QMat
  feature_predictions : QMat
  sampled_dirichlet : QMat
  distribution_loss : ℚ
  reconstruction_loss : ℚ
  class_loss : ℚ
  loss : ℚ

/-- One training-loop step, lines 70-89 (the backward/optimizer calls at
lines 91-92 act only on the abstracted model state). -/
def trainStep (config : Config) (o : Oracle) (le : LossEval)
    (class_proportions : QVec) (batch : Batch) : StepValues :=
  let augmented_posts := matAdd batch.posts (o.normal config.latent_space_noise_std)
  let ml := o.encode augmented_posts
  let eps := o.reparameterize ml.1 ml.2
  let logits := o.decoder eps
  let feature_predictions := o.feature_head eps
  let sampled_dirichlet :=
    o.dirichlet_sample (dirichlet_distribution config) config.training.batch_size
  let distribution_loss := le.samples_loss (sinkhorn_loss_fn config) eps sampled_dirichlet
  let reconstruction_loss := le.mse batch.posts logits
  let class_loss :=
    le.bce_with_logits (class_loss_fn config class_proportions) feature_predictions batch.features
  { eps := eps
    feature_predictions := feature_predictions
    sampled_dirichlet := sampled_dirichlet
    distribution_loss := distribution_loss
    reconstruction_loss := reconstruction_loss
    class_loss := class_loss
    loss := class_loss * config.losses.class_.weight
      + distribution_loss * config.losses.distribution.weight
      + reconstruction_loss * config.losses.reconstruction.weight }

/-- One validation-loop step, lines 106-121 (no noise augmentation: the
encoder runs on `posts` directly). -/
def valStep (config : Config) (o : Oracle) (le : LossEval)
    (class_proportions : QVec) (batch : Batch) : StepValues :=
  let ml := o.encode batch.posts
  let eps := o.reparameterize ml.1 ml.2
  let logits := o.decoder eps
  let feature_predictions := o.feature_head eps
  let sampled_dirichlet :=
    o.dirichlet_sample (dirichlet_distribution config) config.training.batch_size
  let distribution_loss := le.samples_loss (sinkhorn_loss_fn config) eps sampled_dirichlet
  let reconstruction_loss := le.mse batch.posts logits
  let class_loss :=
    le.bce_with_logits (class_loss_fn config class_proportions) feature_predictions batch.features
  { eps := eps
    feature_predictions := feature_predictions
    sampled_dirichlet := sampled_dirichlet
    distribution_loss := distribution_loss
    reconstruction_loss := reconstruction_loss
    class_loss := class_loss
    loss := class_loss * config.losses.class_.weight
      + distribution_loss * config.losses.distribution.weight
      + reconstruction_loss * config.losses.reconstruction.weight }

/-- Counts matrix entries where the thresholded prediction and the feature
value satisfy the given test (lines 128-132: `torch.ge` against the class
threshold, compared against features that equal exactly `1.0` / `0.0`). -/
def countPredFeat (threshold : ℚ) (preds feats : QMat)
    (predPos : Bool) (featVal : ℚ) : ℕ :=
  ((preds.zip feats).map
    (fun rc => (rc.1.zip rc.2).countP
      (fun pf => (decide (threshold ≤ pf.1) == predPos) && decide (pf.2 = featVal)))).sum

/-- The accumulators initialised at lines 94-102. -/
structure EpochAccum where
  loss_accum : ℚ
  class_accum : ℚ
  dist_accum : ℚ
  recon_accum : ℚ
  tp_accum : ℕ
  fp_accum : ℕ
  tn_accum : ℕ
  fn_accum : ℕ
deriving DecidableEq

def initAccum : EpochAccum := ⟨0, 0, 0, 0, 0, 0, 0, 0⟩

/-- Lines 123-132: fold one validation batch into the accumulators. -/
def accumBatch (config : Config) (s : StepValues) (features : QMat)
    (a : EpochAccum) : EpochAccum :=
  let thr := config.losses.class_.threshold
  { loss_accum := a.loss_accum + s.loss
    class_accum := a.class_accum + s.class_loss
    dist_accum := a.dist_accum + s.distribution_loss
    recon_accum := a.recon_accum + s.reconstruction_loss
    tp_accum := a.tp_accum + countPredFeat thr s.feature_predictions features true 1
    fp_accum := a.fp_accum + countPredFeat thr s.feature_predictions features true 0
    tn_accum := a.tn_accum + countPredFeat thr s.feature_predictions features false 0
    fn_accum := a.fn_accum + countPredFeat thr s.feature_predictions features false 1 }

/-- The oracle may differ at every point of the run: it is indexed by the
epoch number, the phase (`true` for the validation pass) and the batch
number, reflecting that the model parameters evolve across steps. -/
abbrev OracleAt := ℕ → Bool → ℕ → Oracle

/-- Lines 104-132: the validation pass of one epoch. -/
def runValEpoch (config : Config) (oa : OracleAt) (le : LossEval)
    (class_proportions : QVec) (epoch_num : ℕ) (val : List Batch) : EpochAccum :=
  val.enum.foldl
    (fun a ib =>
      accumBatch config (valStep config (oa epoch_num true ib.1) le class_proportions ib.2)
        ib.2.features a)
    initAccum

/-- Lines 69-92: the training pass of one epoch (its effect on the model is
carried by the oracle; the step values are what the loop computes). -/
def runTrainEpoch (config : Config) (oa : OracleAt) (le : LossEval)
    (class_proportions : QVec) (epoch_num : ℕ) (train : List Batch) : List StepValues :=
  train.enum.map
    (fun ib => trainStep config (oa epoch_num false ib.1) le class_proportions ib.2)

/-- Python division: raises `ZeroDivisionError` (here `none`) when the
divisor is zero. -/
def pydiv (a b : ℚ) : Option ℚ :=
  if b = 0 then none else some (a / b)

/-- The dictionary yielded at lines 134-144 (the `recall` key is spelt
`recall_` because `recall` is a reserved command name here). -/
structure Report where
  total_loss : ℚ
  class_loss : ℚ
  dist_loss : ℚ
  recon_loss : ℚ
  precision : ℚ
  recall_ : ℚ
  accuracy : ℚ
  specificity : ℚ
  f1_score : ℚ
deriving DecidableEq

/-- The yielded dictionary as ordered key/value pairs. -/
def reportPairs (r : Report) : List (String × ℚ) :=
  [("total_loss", r.total_loss), ("class_loss", r.class_loss),
   ("dist_loss", r.dist_loss), ("recon_loss", r.recon_loss),
   ("precision", r.precision), ("recall", r.recall_),
   ("accuracy", r.accuracy), ("specificity", r.specificity),
   ("f1_score", r.f1_score)]

def reportKeys : List String :=
  ["total_loss", "class_loss", "dist_loss", "recon_loss",
   "precision", "recall", "accuracy", "specificity", "f1_score"]

/-- Lines 134-144: build the epoch report.  The dictionary entries are
evaluated in source order and each division follows Python semantics, so the
first zero divisor aborts the report (`none`). -/
def mkReport (a : EpochAccum) (nbatches : ℕ) : Option Report :=
  (pydiv a.loss_accum nbatches).bind fun total_loss =>
  (pydiv a.class_accum nbatches).bind fun class_loss =>
  (pydiv a.dist_accum nbatches).bind fun dist_loss =>
  (pydiv a.recon_accum nbatches).bind fun recon_loss =>
  (pydiv (a.tp_accum : ℚ) ((a.tp_accum : ℚ) + (a.fp_accum : ℚ))).bind fun precision =>
  (pydiv (a.tp_accum : ℚ) ((a.tp_accum : ℚ) + (a.fn_accum : ℚ))).bind fun recall_ =>
  (pydiv ((a.tp_accum : ℚ) + (a.tn_accum : ℚ))
      ((a.tp_accum : ℚ) + (a.fn_accum : ℚ) + (a.tn_accum : ℚ) + (a.fn_accum : ℚ))).bind fun accuracy =>
  (pydiv (a.tn_accum : ℚ) ((a.tn_accum : ℚ) + (a.fp_accum : ℚ))).bind fun specificity =>
  (pydiv (a.tp_accum : ℚ) ((a.tp_accum : ℚ) + (1 / 2 : ℚ))).map fun f1_score =>
  { total_loss := total_loss
    class_loss := class_loss
    dist_loss := dist_loss
    recon_loss := recon_loss
    precision := precision
    recall_ := recall_
    accuracy := accuracy
    specificity := specificity
    f1_score := f1_score }

/-- The `batch_num + 1` divisor of lines 135-138: `batch_num` is the loop
variable of the last executed `enumerate`, so it is the validation batch
count when the validation loader is nonempty, leaks from the training loop
when only that one ran, and is unbound (`NameError`, here `none`) when both
loaders are empty. -/
def lastBatchNumSucc (train val : List Batch) : Option ℕ :=
  if val.length ≠ 0 then some val.length
  else if train.length ≠ 0 then some train.length
  else none

/-- The datasets and class proportions returned by `get_datasets` (line 33);
dataset loading itself is external to the training loop. -/
structure Data where
  train : List Batch
  val : List Batch
  class_proportions : QVec

/-- One iteration of the epoch loop, as observed through the `yield` at line
134: `none` when a division raises. -/
def epochResult (config : Config) (oa : OracleAt) (le : LossEval)
    (data : Data) (epoch_num : ℕ) : Option Report :=
  match lastBatchNumSucc data.train data.val with
  | none => none
  | some n => mkReport (runValEpoch config oa le data.class_proportions epoch_num data.val) n

/-- What a run of the generator produces. -/
structure RunTrace where
  device : String
  train_steps : List (List StepValues)
  reports : List (Option Report)

/-- Lines 26-144: the whole `train_sinkhorn_vae` generator.  `reports` lists,
epoch by epoch, the report each `yield` produces (`none` where the epoch
raises instead of yielding). -/
def train_sinkhorn_vae (config : Config) (cuda_available : Bool)
    (oa : OracleAt) (le : LossEval) (data : Data) : RunTrace :=
  { device := resolveDevice config.device cuda_available
    train_steps := (List.range config.training.max_epochs).map
      (fun e => runTrainEpoch config oa le data.class_proportions e data.train)
    reports := (List.range config.training.max_epochs).map
      (epochResult config oa le data) }

/-- The values a consumer of the generator actually receives: the yields
before the first raising epoch (all of them, when none raises). -/
def takeWhileSome : List (Option α) → List α
  | [] => []
  | none :: _ => []
  | some a :: rest => a :: takeWhileSome rest

/-- The search algorithm object built at lines 172-173: an `OptunaSearch`,
possibly wrapped in a `ConcurrencyLimiter` with its `max_concurrent` bound. -/
inductive Searcher
  | optunaSearch : Searcher
  | concurrencyLimiter : Searcher → ℕ → Searcher
deriving DecidableEq

/-- The trial scheduler passed to `tune.run`; `fifoScheduler` is Ray Tune's
default, present so that choosing `AsyncHyperBandScheduler` is an actual
choice. -/
inductive Scheduler
  | asyncHyperBand : Scheduler
  | fifoScheduler : Scheduler
deriving DecidableEq

/-- The keyword arguments of the `tune.run` call at lines 175-185. -/
structure TuneRunCall where
  trainable : String
  metric : String
  mode : String
  search_alg : Searcher
  scheduler : Scheduler
  num_samples : ℕ
  local_dir : String
  fail_fast : Bool
deriving DecidableEq

/-- Lines 171-185: `run_optuna_tune` builds the searcher, wraps it in a
`ConcurrencyLimiter(max_concurrent = 6)`, builds an
`AsyncHyperBandScheduler`, and calls `tune.run`. -/
def run_optuna_tune (smoke_test : Bool) : TuneRunCall :=
  let algorithm := Searcher.optunaSearch
  let algorithm := Searcher.concurrencyLimiter algorithm 6
  let scheduler := Scheduler.asyncHyperBand
  { trainable := "train_sinkhorn_vae"
    metric := "total_loss"
    mode := "min"
    search_alg := algorithm
    scheduler := scheduler
    num_samples := if smoke_test then 2 else 20
    local_dir := "results"
    fail_fast := true }

/-- The concurrency bound carried by the search algorithm, if any. -/
def searcherCap : Searcher → Option ℕ
  | Searcher.optunaSearch => none
  | Searcher.concurrencyLimiter _ n => some n

/-- The lifecycle state of one trial managed by `tune.run`. -/
inductive TrialStatus
  | pending
  | running
  | finished
  | errored
deriving DecidableEq

/-- Number of trials currently executing. -/
def runningCount (ts : List TrialStatus) : ℕ :=
  ts.countP (fun s => decide (s = TrialStatus.running))

/-- Whether some trial has raised an error. -/
def hasErrored (ts : List TrialStatus) : Bool :=
  ts.any (fun s => decide (s = TrialStatus.errored))

/-- Observable scheduling events of a `tune.run` execution. -/
inductive TuneEvent
  | start (i : ℕ)
  | finish (i : ℕ)
  | error (i : ℕ)

/-- Small-step semantics of the trial scheduler for a given `tune.run` call:
a pending trial may start only when the search algorithm's concurrency cap
is not saturated and, under `fail_fast`, no trial has errored; a running
trial may finish or error. -/
inductive TuneStep (call : TuneRunCall) :
    List TrialStatus → TuneEvent → List TrialStatus → Prop
  | start (ts : List TrialStatus) (i : ℕ)
      (hp : ts.get? i = some TrialStatus.pending)
      (hcap : ∀ n, searcherCap call.search_alg = some n → runningCount ts < n)
      (hff : call.fail_fast = true → hasErrored ts = false) :
      TuneStep call ts (TuneEvent.start i) (ts.set i TrialStatus.running)
  | finish (ts : List TrialStatus) (i : ℕ)
      (hr : ts.get? i = some TrialStatus.running) :
      TuneStep call ts (TuneEvent.finish i) (ts.set i TrialStatus.finished)
  | error (ts : List TrialStatus) (i : ℕ)
      (hr : ts.get? i = some TrialStatus.running) :
      TuneStep call ts (TuneEvent.error i) (ts.set i TrialStatus.errored)

/-- States reachable by `tune.run` from its initial pool of `num_samples`
pending trials. -/
inductive TuneReach (call : TuneRunCall) : List TrialStatus → Prop
  | init : TuneReach call (List.replicate call.num_samples TrialStatus.pending)
  | step {ts ev ts'} : TuneReach call ts → TuneStep call ts ev ts' →
      TuneReach call ts'

theorem countP_set_le {α : Type} (p : α → Bool) (l : List α) (i : ℕ) (x : α)
    (hx : p x = false) : (l.set i x).countP p ≤ l.countP p := by
  induction l generalizing i with
  | nil => simp
  | cons a t ih =>
    cases i with
    | zero => cases hpa : p a <;> simp [List.countP_cons, hx, hpa]
    | succ j =>
      have := ih j
      simp only [List.set, List.countP_cons]
      omega

theorem countP_set_le_succ {α : Type} (p : α → Bool) (l : List α) (i : ℕ) (x : α) :
    (l.set i x).countP p ≤ l.countP p + 1 := by
  induction l generalizing i with
  | nil => simp
  | cons a t ih =>
    cases i with
    | zero =>
      simp only [List.set, List.countP_cons]
      cases hpa : p a <;> cases hpx : p x <;> simp [hpa, hpx]
      omega
    | succ j =>
      have := ih j
      simp only [List.set, List.countP_cons]
      omega

theorem runningCount_replicate_pending (n : ℕ) :
    runningCount (List.replicate n TrialStatus.pending) = 0 := by
  induction n with
  | zero => rfl
  | succ k _ =>
    rw [List.replicate_succ]
    rw [runningCount, List.countP_cons]
    simp [runningCount]


/-- C1: `run_optuna_tune` wraps the Optuna searcher in a `ConcurrencyLimiter`
with `max_concurrent = 6`, and in every state the scheduler can reach during
`tune.run` at most 6 trials are executing concurrently. -/
theorem tune_concurrency_cap (smoke_test : Bool) (ts : List TrialStatus)
    (h : TuneReach (run_optuna_tune smoke_test) ts) :
    searcherCap (run_optuna_tune smoke_test).search_alg = some 6 ∧
    runningCount ts ≤ 6 := by
  refine ⟨rfl, ?_⟩
  induction h with
  | init => simp [runningCount_replicate_pending]
  | step hreach hstep ih =>
    rename_i ts ev ts'
    cases hstep with
    | start i hp hcap hff =>
      have hlt : runningCount ts < 6 := hcap 6 rfl
      have hle := countP_set_le_succ (fun s => decide (s = TrialStatus.running))
        ts i TrialStatus.running
      unfold runningCount at *
      omega
    | finish i hr =>
      have hle := countP_set_le (fun s => decide (s = TrialStatus.running))
        ts i TrialStatus.finished rfl
      unfold runningCount at *
      omega
    | error i hr =>
      have hle := countP_set_le (fun s => decide (s = TrialStatus.running))
        ts i TrialStatus.errored rfl
      unfold runningCount at *
      omega

/-- C1 witness: the initial smoke-test state is reachable and satisfies the
cap. -/
theorem tune_concurrency_cap_witness :
    searcherCap (run_optuna_tune true).search_alg = some 6 ∧
    runningCount (List.replicate 2 TrialStatus.pending) ≤ 6 :=
  tune_concurrency_cap true (List.replicate 2 TrialStatus.pending) TuneReach.init

/-- C2: `tune.run` is invoked with `fail_fast = True`, and once any trial has
errored no further trial can start: the search aborts instead of continuing
with the remaining trials. -/
theorem tune_fail_fast_aborts (smoke_test : Bool) :
    (run_optuna_tune smoke_test).fail_fast = true ∧
    ∀ ts ts' i, hasErrored ts = true →
      ¬ TuneStep (run_optuna_tune smoke_test) ts (TuneEvent.start i) ts' := by
  refine ⟨rfl, ?_⟩
  intro ts ts' i herr hstep
  cases hstep
  rename_i hcap hff hp
  have hfalse := hff rfl
  rw [herr] at hfalse
  exact Bool.noConfusion hfalse

/-- C2 witness: from a concrete state with an errored trial, the pending
trial cannot start. -/
theorem tune_fail_fast_aborts_witness :
    (run_optuna_tune true).fail_fast = true ∧
    ¬ TuneStep (run_optuna_tune true)
        [TrialStatus.errored, TrialStatus.pending] (TuneEvent.start 1)
        ([TrialStatus.errored, TrialStatus.pending].set 1 TrialStatus.running) :=
  ⟨(tune_fail_fast_aborts true).1,
   (tune_fail_fast_aborts true).2 _ _ 1 (by decide)⟩

/-- C5: `tune.run` uses an `AsyncHyperBandScheduler` and minimises the
`total_loss` metric. -/
theorem tune_scheduler_metric (smoke_test : Bool) :
    (run_optuna_tune smoke_test).scheduler = Scheduler.asyncHyperBand ∧
    (run_optuna_tune smoke_test).metric = "total_loss" ∧
    (run_optuna_tune smoke_test).mode = "min" :=
  ⟨rfl, rfl, rfl⟩

/-- C3: in every training step and every validation step, the total loss is
the weighted sum of the classification, distribution and reconstruction
losses, with the weights taken from `config['losses']`. -/
theorem step_loss_weighted_sum (config : Config) (o : Oracle) (le : LossEval)
    (class_proportions : QVec) (batch : Batch) :
    ((trainStep config o le class_proportions batch).loss
        = (trainStep config o le class_proportions batch).class_loss
            * config.losses.class_.weight
          + (trainStep config o le class_proportions batch).distribution_loss
            * config.losses.distribution.weight
          + (trainStep config o le class_proportions batch).reconstruction_loss
            * config.losses.reconstruction.weight) ∧
    ((valStep config o le class_proportions batch).loss
        = (valStep config o le class_proportions batch).class_loss
            * config.losses.class_.weight
          + (valStep config o le class_proportions batch).distribution_loss
            * config.losses.distribution.weight
          + (valStep config o le class_proportions batch).reconstruction_loss
            * config.losses.reconstruction.weight) :=
  ⟨rfl, rfl⟩

/-- C4: in every step the distribution loss is the `geomloss.SamplesLoss`
built from `config['losses']['distribution']` (`type`, `p`, `blur`), applied
to the reparameterized codes `eps` and `config['training']['batch_size']`
samples of a symmetric Dirichlet whose concentration is `alpha` in each of
the `latent_dims` dimensions. -/
theorem distribution_loss_sinkhorn_dirichlet (config : Config) (o : Oracle)
    (le : LossEval) (class_proportions : QVec) (batch : Batch) :
    (dirichlet_distribution config).concentration
        = List.replicate config.model.latent_dims config.losses.distribution.alpha ∧
    sinkhorn_loss_fn config
        = { loss := config.losses.distribution.type
            p := config.losses.distribution.p
            blur := config.losses.distribution.blur } ∧
    ((trainStep config o le class_proportions batch).distribution_loss
        = le.samples_loss (sinkhorn_loss_fn config)
            (trainStep config o le class_proportions batch).eps
            (o.dirichlet_sample (dirichlet_distribution config)
              config.training.batch_size)) ∧
    ((valStep config o le class_proportions batch).distribution_loss
        = le.samples_loss (sinkhorn_loss_fn config)
            (valStep config o le class_proportions batch).eps
            (o.dirichlet_sample (dirichlet_distribution config)
              config.training.batch_size)) := by
  refine ⟨?_, rfl, rfl, rfl⟩
  simp [dirichlet_distribution, List.map_const', List.length_range]

/-- C6: the model's feature head has 7 outputs, and in every step the class
loss is the `BCEWithLogitsLoss` with
`pos_weight = (1 / class_proportions) * config['losses']['class']['bias']`,
applied to the feature predictions and the batch's feature labels. -/
theorem class_loss_multilabel_bce (config : Config) (o : Oracle)
    (le : LossEval) (class_proportions : QVec) (batch : Batch) :
    (mkModel config).feature_dim = 7 ∧
    (class_loss_fn config class_proportions).pos_weight
        = class_proportions.map (fun c => (1 / c) * config.losses.class_.bias) ∧
    ((trainStep config o le class_proportions batch).class_loss
        = le.bce_with_logits (class_loss_fn config class_proportions)
            (trainStep config o le class_proportions batch).feature_predictions
            batch.features) ∧
    ((valStep config o le class_proportions batch).class_loss
        = le.bce_with_logits (class_loss_fn config class_proportions)
            (valStep config o le class_proportions batch).feature_predictions
            batch.features) :=
  ⟨rfl, rfl, rfl, rfl⟩

/-- The textbook accuracy, stated from the spec side for comparison:
`(tp + tn) / (tp + fp + tn + fn)`. -/
def standard_accuracy (tp fp tn fn : ℚ) : ℚ :=
  (tp + tn) / (tp + fp + tn + fn)

/-- The textbook F1 score, stated from the spec side for comparison:
`2 tp / (2 tp + fp + fn)`. -/
def standard_f1 (tp fp fn : ℚ) : ℚ :=
  2 * tp / (2 * tp + fp + fn)

/-- C8: whenever an epoch report is produced, its `accuracy` equals
`(tp + tn) / (tp + fn + tn + fn)` (false negatives counted twice, false
positives absent) and its `f1_score` equals `tp / (tp + 0.5)`; moreover, on
a concrete count vector both differ from the standard definitions. -/
theorem metrics_nonstandard (a : EpochAccum) (n : ℕ) (hn : n ≠ 0)
    (h1 : a.tp_accum + a.fp_accum ≠ 0) (h2 : a.tp_accum + a.fn_accum ≠ 0)
    (h3 : a.tn_accum + a.fp_accum ≠ 0) :
    (∃ r, mkReport a n = some r ∧
      r.accuracy = ((a.tp_accum : ℚ) + (a.tn_accum : ℚ))
          / ((a.tp_accum : ℚ) + (a.fn_accum : ℚ) + (a.tn_accum : ℚ) + (a.fn_accum : ℚ)) ∧
      r.f1_score = (a.tp_accum : ℚ) / ((a.tp_accum : ℚ) + (1 / 2 : ℚ))) ∧
    (∃ a0 r0, mkReport a0 1 = some r0 ∧
      r0.accuracy
        ≠ standard_accuracy a0.tp_accum a0.fp_accum a0.tn_accum a0.fn_accum ∧
      r0.f1_score ≠ standard_f1 a0.tp_accum a0.fp_accum a0.fn_accum) := by
  constructor
  · have hn' : ((n : ℚ)) ≠ 0 := Nat.cast_ne_zero.mpr hn
    have h1' : ((a.tp_accum : ℚ) + (a.fp_accum : ℚ)) ≠ 0 := by exact_mod_cast h1
    have h2' : ((a.tp_accum : ℚ) + (a.fn_accum : ℚ)) ≠ 0 := by exact_mod_cast h2
    have h3' : ((a.tn_accum : ℚ) + (a.fp_accum : ℚ)) ≠ 0 := by exact_mod_cast h3
    have h4' : ((a.tp_accum : ℚ) + (a.fn_accum : ℚ) + (a.tn_accum : ℚ)
        + (a.fn_accum : ℚ)) ≠ 0 := by
      exact_mod_cast (show a.tp_accum + a.fn_accum + a.tn_accum + a.fn_accum ≠ 0
        by omega)
    have h5' : ((a.tp_accum : ℚ) + (2⁻¹ : ℚ)) ≠ 0 := by positivity
    refine ⟨{ total_loss := a.loss_accum / n
              class_loss := a.class_accum / n
              dist_loss := a.dist_accum / n
              recon_loss := a.recon_accum / n
              precision := (a.tp_accum : ℚ) / ((a.tp_accum : ℚ) + (a.fp_accum : ℚ))
              recall_ := (a.tp_accum : ℚ) / ((a.tp_accum : ℚ) + (a.fn_accum : ℚ))
              accuracy := ((a.tp_accum : ℚ) + (a.tn_accum : ℚ))
                / ((a.tp_accum : ℚ) + (a.fn_accum : ℚ) + (a.tn_accum : ℚ)
                  + (a.fn_accum : ℚ))
              specificity := (a.tn_accum : ℚ) / ((a.tn_accum : ℚ) + (a.fp_accum : ℚ))
              f1_score := (a.tp_accum : ℚ) / ((a.tp_accum : ℚ) + (1 / 2 : ℚ)) },
            ?_, rfl, rfl⟩
    simp [mkReport, pydiv, hn', h1', h2', h3', h4', h5']
  · refine ⟨⟨0, 0, 0, 0, 1, 2, 3, 1⟩, ⟨0, 0, 0, 0, 1/3, 1/2, 2/3, 3/5, 2/3⟩,
      ?_, ?_, ?_⟩
    · norm_num [mkReport, pydiv]
    · norm_num [standard_accuracy]
    · norm_num [standard_f1]

/-- C8 witness: the theorem applied at a concrete count vector. -/
theorem metrics_nonstandard_witness :
    (∃ r, mkReport ⟨0, 0, 0, 0, 1, 2, 3, 1⟩ 1 = some r ∧
      r.accuracy = (((1 : ℕ) : ℚ) + ((3 : ℕ) : ℚ))
          / (((1 : ℕ) : ℚ) + ((1 : ℕ) : ℚ) + ((3 : ℕ) : ℚ) + ((1 : ℕ) : ℚ)) ∧
      r.f1_score = ((1 : ℕ) : ℚ) / (((1 : ℕ) : ℚ) + (1 / 2 : ℚ))) ∧
    (∃ a0 r0, mkReport a0 1 = some r0 ∧
      r0.accuracy
        ≠ standard_accuracy a0.tp_accum a0.fp_accum a0.tn_accum a0.fn_accum ∧
      r0.f1_score ≠ standard_f1 a0.tp_accum a0.fp_accum a0.fn_accum) :=
  metrics_nonstandard ⟨0, 0, 0, 0, 1, 2, 3, 1⟩ 1 (by decide) (by decide)
    (by decide) (by decide)

/-- C9: the metric divisions are unguarded: a validation epoch with
`tp + fp = 0` (no positive predictions), `tp + fn = 0`, or `tn + fp = 0`
raises `ZeroDivisionError` instead of yielding a report, and a report is
produced only when all three denominators are nonzero. -/
theorem metric_divisions_unguarded (a : EpochAccum) (n : ℕ) :
    (a.tp_accum + a.fp_accum = 0 → mkReport a n = none) ∧
    (a.tp_accum + a.fn_accum = 0 → mkReport a n = none) ∧
    (a.tn_accum + a.fp_accum = 0 → mkReport a n = none) ∧
    (∀ r, mkReport a n = some r →
      a.tp_accum + a.fp_accum ≠ 0 ∧ a.tp_accum + a.fn_accum ≠ 0 ∧
      a.tn_accum + a.fp_accum ≠ 0) := by
  have p1 : a.tp_accum + a.fp_accum = 0 → mkReport a n = none := by
    intro h0
    have hpre0 : ((a.tp_accum : ℚ) + (a.fp_accum : ℚ)) = 0 := by exact_mod_cast h0
    by_cases hn : ((n : ℚ)) = 0
    · simp [mkReport, pydiv, hn]
    · simp [mkReport, pydiv, hn, hpre0]
  have p2 : a.tp_accum + a.fn_accum = 0 → mkReport a n = none := by
    intro h0
    have hrec0 : ((a.tp_accum : ℚ) + (a.fn_accum : ℚ)) = 0 := by exact_mod_cast h0
    by_cases hn : ((n : ℚ)) = 0
    · simp [mkReport, pydiv, hn]
    · by_cases hfp : a.tp_accum + a.fp_accum = 0
      · have hpre0 : ((a.tp_accum : ℚ) + (a.fp_accum : ℚ)) = 0 := by exact_mod_cast hfp
        simp [mkReport, pydiv, hn, hpre0]
      · have hpre : ((a.tp_accum : ℚ) + (a.fp_accum : ℚ)) ≠ 0 := by exact_mod_cast hfp
        simp [mkReport, pydiv, hn, hpre, hrec0]
  have p3 : a.tn_accum + a.fp_accum = 0 → mkReport a n = none := by
    intro h0
    have hspec0 : ((a.tn_accum : ℚ) + (a.fp_accum : ℚ)) = 0 := by exact_mod_cast h0
    by_cases hn : ((n : ℚ)) = 0
    · simp [mkReport, pydiv, hn]
    · by_cases htp : a.tp_accum = 0
      · by_cases hfn : a.tp_accum + a.fn_accum = 0
        · exact p2 hfn
        · have hpre0 : ((a.tp_accum : ℚ) + (a.fp_accum : ℚ)) = 0 := by
            exact_mod_cast (show a.tp_accum + a.fp_accum = 0 by omega)
          simp [mkReport, pydiv, hn, hpre0]
      · have hpre : ((a.tp_accum : ℚ) + (a.fp_accum : ℚ)) ≠ 0 := by
          exact_mod_cast (show a.tp_accum + a.fp_accum ≠ 0 by omega)
        have hrec : ((a.tp_accum : ℚ) + (a.fn_accum : ℚ)) ≠ 0 := by
          exact_mod_cast (show a.tp_accum + a.fn_accum ≠ 0 by omega)
        have hacc : ((a.tp_accum : ℚ) + (a.fn_accum : ℚ) + (a.tn_accum : ℚ)
            + (a.fn_accum : ℚ)) ≠ 0 := by
          exact_mod_cast (show a.tp_accum + a.fn_accum + a.tn_accum
            + a.fn_accum ≠ 0 by omega)
        simp [mkReport, pydiv, hn, hpre, hrec, hacc, hspec0]
  refine ⟨p1, p2, p3, fun r h => ⟨?_, ?_, ?_⟩⟩
  · intro h0
    simp [p1 h0] at h
  · intro h0
    simp [p2 h0] at h
  · intro h0
    simp [p3 h0] at h

/-- C9 witness: a validation epoch with no positive predictions raises
instead of reporting. -/
theorem metric_divisions_unguarded_witness :
    mkReport ⟨0, 0, 0, 0, 0, 0, 5, 0⟩ 3 = none :=
  (metric_divisions_unguarded ⟨0, 0, 0, 0, 0, 0, 5, 0⟩ 3).1 (by decide)

theorem takeWhileSome_length {α : Type} (l : List (Option α))
    (h : ∀ x ∈ l, x.isSome = true) : (takeWhileSome l).length = l.length := by
  induction l with
  | nil => rfl
  | cons a t ih =>
    cases a with
    | none => exact absurd (h none (List.mem_cons_self _ _)) (by simp)
    | some b =>
      simpa [takeWhileSome] using ih (fun x hx => h x (List.mem_cons_of_mem _ hx))

/-- C7: the generator runs for exactly `max_epochs` epochs and, provided no
epoch raises, yields exactly one report per epoch and then terminates; each
report carries exactly the nine metric keys in order. -/
theorem trial_bounded_epochs (config : Config) (cuda_available : Bool)
    (oa : OracleAt) (le : LossEval) (data : Data)
    (h : ∀ e, e < config.training.max_epochs →
      (epochResult config oa le data e).isSome = true) :
    (train_sinkhorn_vae config cuda_available oa le data).reports.length
        = config.training.max_epochs ∧
    (takeWhileSome
        (train_sinkhorn_vae config cuda_available oa le data).reports).length
        = config.training.max_epochs ∧
    ∀ r ∈ takeWhileSome
        (train_sinkhorn_vae config cuda_available oa le data).reports,
      (reportPairs r).map Prod.fst = reportKeys := by
  refine ⟨by simp [train_sinkhorn_vae], ?_, fun r hr => rfl⟩
  have hall : ∀ x ∈ (train_sinkhorn_vae config cuda_available oa le data).reports,
      x.isSome = true := by
    intro x hx
    simp only [train_sinkhorn_vae, List.mem_map, List.mem_range] at hx
    obtain ⟨e, he, hfe⟩ := hx
    rw [← hfe]
    exact h e he
  rw [takeWhileSome_length _ hall]
  simp [train_sinkhorn_vae]

/-- A concrete trial configuration used to witness the run-level theorems. -/
def testConfig : Config :=
  { device := "cuda:0"
    model := { latent_dims := 3, softmax := true }
    training := { max_epochs := 2, batch_size := 4 }
    losses :=
      { class_ := { weight := 1, bias := 1, threshold := 1 }
        distribution := { type := "sinkhorn", p := 2, blur := 1/20, alpha := 1/2, weight := 1 }
        reconstruction := { weight := 1 } }
    dataset := { context := false, batch_size := 16 }
    latent_space_noise_std := 1/10
    adam_learning_rate := 1/1000
    adam_betas := (9/10, 999/1000) }

/-- A concrete step oracle used to witness the run-level theorems. -/
def testOracle : Oracle :=
  { encode := fun m => (m, m)
    reparameterize := fun m _ => m
    decoder := fun m => m
    feature_head := fun m => m
    normal := fun _ => []
    dirichlet_sample := fun _ _ => [] }

def testOracleAt : OracleAt := fun _ _ _ => testOracle

/-- A concrete loss evaluator used to witness the run-level theorems. -/
def testLossEval : LossEval :=
  { samples_loss := fun _ _ _ => 0
    mse := fun _ _ => 0
    bce_with_logits := fun _ _ _ => 0 }

/-- A concrete dataset used to witness the run-level theorems. -/
def testData : Data :=
  { train := []
    val := [{ features := [[1, 0]], posts := [[1, 0]] }]
    class_proportions := [1, 1] }

/-- C7 witness: a concrete two-epoch run yields exactly two reports. -/
theorem trial_bounded_epochs_witness :
    (train_sinkhorn_vae testConfig true testOracleAt testLossEval testData).reports.length
        = testConfig.training.max_epochs ∧
    (takeWhileSome
        (train_sinkhorn_vae testConfig true testOracleAt testLossEval testData).reports).length
        = testConfig.training.max_epochs ∧
    ∀ r ∈ takeWhileSome
        (train_sinkhorn_vae testConfig true testOracleAt testLossEval testData).reports,
      (reportPairs r).map Prod.fst = reportKeys :=
  trial_bounded_epochs testConfig true testOracleAt testLossEval testData
    (by
      intro e he
      norm_num [epochResult, lastBatchNumSucc, runValEpoch, valStep, accumBatch,
        initAccum, countPredFeat, mkReport, pydiv, testConfig, testOracleAt,
        testOracle, testLossEval, testData, dirichlet_distribution,
        sinkhorn_loss_fn, class_loss_fn])

/-- C10: when the configured device is `cuda:0` but CUDA is unavailable, the
trial does not fail: it silently reverts to `cpu` and proceeds exactly as a
CPU run. -/
theorem cuda_fallback (config : Config) (oa : OracleAt) (le : LossEval)
    (data : Data) (h : config.device = "cuda:0") :
    (train_sinkhorn_vae config false oa le data).device = "cpu" ∧
    (train_sinkhorn_vae config false oa le data).reports
        = (train_sinkhorn_vae { config with device := "cpu" } true oa le data).reports ∧
    (train_sinkhorn_vae config false oa le data).train_steps
        = (train_sinkhorn_vae { config with device := "cpu" } true oa le data).train_steps := by
  refine ⟨?_, rfl, rfl⟩
  simp [train_sinkhorn_vae, resolveDevice, h]

/-- C10 witness: the concrete configuration asks for `cuda:0`; without CUDA
the run uses `cpu` and its outputs are those of the CPU run. -/
theorem cuda_fallback_witness :
    (train_sinkhorn_vae testConfig false testOracleAt testLossEval testData).device = "cpu" ∧
    (train_sinkhorn_vae testConfig false testOracleAt testLossEval testData).reports
        = (train_sinkhorn_vae { testConfig with device := "cpu" } true testOracleAt testLossEval testData).reports ∧
    (train_sinkhorn_vae testConfig false testOracleAt testLossEval testData).train_steps
        = (train_sinkhorn_vae { testConfig with device := "cpu" } true testOracleAt testLossEval testData).train_steps :=
  cuda_fallback testConfig testOracleAt testLossEval testData rfl

end TrainLoops
